import Mathlib

/-!
# Sentinel Protocol MPC — verification of the confidential circuit library
and the callback dispatcher surface

Shallow embedding of the two source files of the repository:

* `encrypted-ixs/src/lib.rs` — the Arcis circuit library (pure arithmetic
  over decrypted views of encrypted records);
* `programs/sentinel-mpc/src/lib.rs` — the Anchor program: per-circuit
  callback handlers, the event types they emit, and the error taxonomy.

Modelling conventions:

* Rust `u64` values are `Nat`s; additions and multiplications that can
  exceed the machine width are reduced modulo `2^64` (`add64`, `mul64`),
  matching the wrap-around semantics of release-mode Rust and of the MPC
  ring the Arcis circuits execute in.  Division by zero is a runtime
  failure in Rust, so the two circuit functions whose divisor is an
  unguarded input return `Option` and yield `none` exactly when the
  divisor is zero (`div64`).
* `Enc<Mxe, T>` / `Enc<Shared, T>` ciphertext containers are modelled by
  a single structure `Enc T` carrying an abstract owner key (`Nat`) and
  the plaintext value; `to_arcis` decrypts, `from_arcis` re-encrypts to a
  given owner.  The cryptography itself is outside the embedding; what is
  kept is which owner a result is (re-)encrypted to and which values are
  revealed as plaintext (the functions returning plain `Bool`/`Nat`).
* `[u8; 32]` identifiers (`token_mint`, …) are modelled as `Fin 32 → Nat`;
  only their decidable equality is ever used by the source.
* The Arcium `ComputationOutputs` enum is modelled with two constructors:
  `Success` and `Failure`; the source callbacks match `Success(..)` and
  send every other variant (the `_` arm) to the same error, so collapsing
  the non-success variants loses nothing.
* `Clock::get()?.unix_timestamp` is modelled as an explicit `now : Int`
  parameter of each callback handler.
-/

/-- The modulus of 64-bit machine arithmetic, `2^64`. -/
def U64 : Nat := 2 ^ 64

/-- Wrapping 64-bit addition (Rust release / MPC ring semantics). -/
def add64 (a b : Nat) : Nat := (a + b) % U64

/-- Wrapping 64-bit multiplication (Rust release / MPC ring semantics). -/
def mul64 (a b : Nat) : Nat := (a * b) % U64

/-- Rust `u64` division: truncating, and a runtime failure (`none`) when
the divisor is zero. -/
def div64 (a b : Nat) : Option Nat := if b = 0 then none else some (a / b)

/-- Model of the `[u8; 32]` byte identifiers (token mints, ids). -/
def Bytes32 : Type := Fin 32 → Nat

instance : DecidableEq Bytes32 :=
  inferInstanceAs (DecidableEq (Fin 32 → Nat))

/-- Model of an Arcis ciphertext container `Enc<_, T>`: an abstract
owner key plus the contained plaintext value. -/
structure Enc (T : Type) where
  owner : Nat
  value : T

/-- `Enc::to_arcis`: decrypt inside the MPC cluster. -/
def Enc.to_arcis {T : Type} (e : Enc T) : T := e.value

/-- `owner.from_arcis(v)`: encrypt `v` to `owner`. -/
def from_arcis {T : Type} (owner : Nat) (v : T) : Enc T := ⟨owner, v⟩

/-- `struct EncryptedPosition` of `encrypted-ixs/src/lib.rs`. -/
structure EncryptedPosition where
  collateral_usd : Nat
  debt_usd : Nat
  health_factor_bps : Nat
  leverage_bps : Nat
  liquidation_price : Nat
  protocol_id : Nat
  last_updated : Int

/-- `struct DarkPoolOrder` of `encrypted-ixs/src/lib.rs`. -/
structure DarkPoolOrder where
  side : Nat
  token_mint : Bytes32
  amount : Nat
  limit_price : Nat
  min_fill_amount : Nat
  expires_at : Int

/-- `struct SwapIntent` of `encrypted-ixs/src/lib.rs`. -/
structure SwapIntent where
  from_token : Bytes32
  to_token : Bytes32
  amount_in : Nat
  min_amount_out : Nat
  max_slippage_bps : Nat
  deadline : Int

/-- `struct OrderMatchResult` of `encrypted-ixs/src/lib.rs`. -/
structure OrderMatchResult where
  is_matched : Bool
  execution_price : Nat
  fill_amount : Nat

/-- `struct AggregatedRiskMetrics` of `encrypted-ixs/src/lib.rs`. -/
structure AggregatedRiskMetrics where
  total_collateral : Nat
  total_debt : Nat
  weighted_health : Nat
  positions_at_risk : Nat

/-- Circuit `update_health_factor` (`encrypted-ixs/src/lib.rs:76`).
Overwrites collateral and debt, then recomputes the two ratios.  The two
divisions use `div64`: the second one divides by `new_collateral`, which
the source does not guard, so the whole call fails (`none`) when
`new_collateral = 0` and `new_debt > 0`. -/
def update_health_factor (stored_ctxt : Enc EncryptedPosition)
    (new_collateral new_debt : Nat) : Option (Enc EncryptedPosition) :=
  let position := stored_ctxt.to_arcis
  let position :=
    { position with collateral_usd := new_collateral, debt_usd := new_debt }
  if new_debt > 0 then
    (div64 (mul64 new_collateral 10000) new_debt).bind fun h =>
      (div64 (mul64 new_debt 10000) new_collateral).map fun l =>
        from_arcis stored_ctxt.owner
          { position with health_factor_bps := h, leverage_bps := l }
  else
    some (from_arcis stored_ctxt.owner
      { position with health_factor_bps := 10000, leverage_bps := 10000 })

/-- Circuit `calculate_liquidation_risk` (`encrypted-ixs/src/lib.rs:107`).
Reveals the risk tier as plaintext. -/
def calculate_liquidation_risk (position_ctxt : Enc EncryptedPosition)
    (price_impact_bps : Nat) : Nat :=
  let position := position_ctxt.to_arcis
  let adjusted_health :=
    if position.health_factor_bps > price_impact_bps then
      position.health_factor_bps - price_impact_bps
    else 0
  if adjusted_health ≥ 15000 then 0
  else if adjusted_health ≥ 12500 then 1
  else if adjusted_health ≥ 11000 then 2
  else if adjusted_health ≥ 10500 then 3
  else 4

/-- Circuit `match_dark_pool_orders` (`encrypted-ixs/src/lib.rs:181`).
Reveals only the matching boolean. -/
def match_dark_pool_orders (buy_order sell_order : Enc DarkPoolOrder) : Bool :=
  let buy := buy_order.to_arcis
  let sell := sell_order.to_arcis
  let tokens_match := decide (buy.token_mint = sell.token_mint)
  let price_compatible := decide (buy.limit_price ≥ sell.limit_price)
  let amount_sufficient :=
    decide (buy.amount ≥ sell.min_fill_amount) &&
    decide (sell.amount ≥ buy.min_fill_amount)
  let sides_valid := decide (buy.side = 0) && decide (sell.side = 1)
  tokens_match && price_compatible && amount_sufficient && sides_valid

/-- Circuit `calculate_execution_price` (`encrypted-ixs/src/lib.rs:197`).
The result is re-encrypted to the buy order's owner, not revealed. -/
def calculate_execution_price (buy_order sell_order : Enc DarkPoolOrder) :
    Enc OrderMatchResult :=
  let buy := buy_order.to_arcis
  let sell := sell_order.to_arcis
  let execution_price := add64 buy.limit_price sell.limit_price / 2
  let fill_amount := if buy.amount < sell.amount then buy.amount else sell.amount
  let is_matched := decide (buy.limit_price ≥ sell.limit_price)
  from_arcis buy_order.owner
    { is_matched := is_matched, execution_price := execution_price,
      fill_amount := fill_amount }

/-- Circuit `verify_swap_fairness` (`encrypted-ixs/src/lib.rs:259`).
The division by `oracle_price` is unguarded in the source, so the call
fails (`none`) exactly when `oracle_price = 0`. -/
def verify_swap_fairness (intent_ctxt : Enc SwapIntent)
    (oracle_price execution_price max_deviation_bps : Nat) : Option Bool :=
  let _intent := intent_ctxt.to_arcis
  let price_diff :=
    if execution_price > oracle_price then execution_price - oracle_price
    else oracle_price - execution_price
  (div64 (mul64 price_diff 10000) oracle_price).map fun deviation_bps =>
    decide (deviation_bps ≤ max_deviation_bps)

/-- The scan of circuit `aggregate_portfolio_risk`'s `while` loop
(`encrypted-ixs/src/lib.rs:332-343`): accumulator is
`(total_collateral, total_debt, positions_at_risk)`. -/
def agg_scan (risk_threshold_bps : Nat) :
    List EncryptedPosition → Nat × Nat × Nat → Nat × Nat × Nat
  | [], acc => acc
  | p :: ps, (tc, td, n) =>
    if p.debt_usd > 0 then
      agg_scan risk_threshold_bps ps
        (add64 tc p.collateral_usd, add64 td p.debt_usd,
          if p.health_factor_bps < risk_threshold_bps then n + 1 else n)
    else
      agg_scan risk_threshold_bps ps (tc, td, n)

/-- Circuit `aggregate_portfolio_risk` (`encrypted-ixs/src/lib.rs:322`).
The source array is `[EncryptedPosition; 10]`; the claims quantify over
lists of length 10.  The result is re-encrypted to the positions' owner. -/
def aggregate_portfolio_risk (positions : Enc (List EncryptedPosition))
    (risk_threshold_bps : Nat) : Enc AggregatedRiskMetrics :=
  let pos_array := positions.to_arcis
  let t := agg_scan risk_threshold_bps pos_array (0, 0, 0)
  let weighted_health :=
    if t.2.1 > 0 then mul64 t.1 10000 / t.2.1 else 10000
  from_arcis positions.owner
    { total_collateral := t.1, total_debt := t.2.1,
      weighted_health := weighted_health, positions_at_risk := t.2.2 }

/-- `enum ErrorCode` of `programs/sentinel-mpc/src/lib.rs:415-429`: the
program's complete error taxonomy. -/
inductive ErrorCode where
  | AbortedComputation
  | ClusterNotSet
  | InvalidPositionState
  | OrderExpired
  | InsufficientLiquidity
  | SlippageExceeded
deriving DecidableEq

/-- The variant name of each `ErrorCode` member, as written in the source
enum. -/
def ErrorCode.variantName : ErrorCode → String
  | .AbortedComputation => "AbortedComputation"
  | .ClusterNotSet => "ClusterNotSet"
  | .InvalidPositionState => "InvalidPositionState"
  | .OrderExpired => "OrderExpired"
  | .InsufficientLiquidity => "InsufficientLiquidity"
  | .SlippageExceeded => "SlippageExceeded"

/-- All members of the `ErrorCode` enum, in source order. -/
def allErrorCodes : List ErrorCode :=
  [.AbortedComputation, .ClusterNotSet, .InvalidPositionState,
   .OrderExpired, .InsufficientLiquidity, .SlippageExceeded]

/-- The variant names of the program's error taxonomy. -/
def errorCodeNames : List String := allErrorCodes.map ErrorCode.variantName

/-- The typed domain events of `programs/sentinel-mpc/src/lib.rs:370-413`,
one constructor per `#[event]` struct; every one carries a timestamp. -/
inductive SentinelEvent where
  | PositionInitialized (timestamp : Int)
  | HealthFactorUpdated (timestamp : Int)
  | HealthThresholdProved (is_healthy : Bool) (timestamp : Int)
  | DarkPoolOrderCreated (timestamp : Int)
  | DarkPoolOrdersMatched (is_matched : Bool) (timestamp : Int)
  | PrivateSwapExecuted (success : Bool) (timestamp : Int)
  | BatchHealthChecked (at_risk_count : Nat) (timestamp : Int)
  | LiquidationRiskCalculated (risk_level : Nat) (timestamp : Int)
deriving DecidableEq

/-- The Arcium `ComputationOutputs` enum as consumed by the callbacks:
the source matches on `Success(..)` and sends every other variant (its
`_` arm) to the same error, so the non-success variants are collapsed
into a single `Failure` constructor. -/
inductive ComputationOutputs (α : Type) where
  | Success (val : α)
  | Failure

/-- Output payload of circuit `init_encrypted_position`. -/
structure InitEncryptedPositionOutput where
  field_0 : Enc EncryptedPosition

/-- Output payload of circuit `update_health_factor`. -/
structure UpdateHealthFactorOutput where
  field_0 : Enc EncryptedPosition

/-- Output payload of circuit `prove_health_threshold`. -/
structure ProveHealthThresholdOutput where
  field_0 : Bool

/-- Output payload of circuit `init_dark_pool_order`. -/
structure InitDarkPoolOrderOutput where
  field_0 : Enc DarkPoolOrder

/-- Output payload of circuit `match_dark_pool_orders`. -/
structure MatchDarkPoolOrdersOutput where
  field_0 : Bool

/-- Output payload of circuit `execute_private_swap`. -/
structure ExecutePrivateSwapOutput where
  field_0 : Bool

/-- Output payload of circuit `batch_health_check`. -/
structure BatchHealthCheckOutput where
  field_0 : Nat

/-- Output payload of circuit `calculate_liquidation_risk`. -/
structure CalculateLiquidationRiskOutput where
  field_0 : Nat

/-- A callback handler's observable outcome: either the error it fails
with, or the list of events it emits.  No handler of the program touches
any stored record (the callback account contexts carry no record
accounts), so the event list is the entire mutable effect. -/
abbrev CallbackResult := Except ErrorCode (List SentinelEvent)

/-- `init_encrypted_position_callback` (`programs/sentinel-mpc/src/lib.rs:79`). -/
def init_encrypted_position_callback
    (output : ComputationOutputs InitEncryptedPositionOutput) (now : Int) :
    CallbackResult :=
  match output with
  | .Success _ => .ok [SentinelEvent.PositionInitialized now]
  | .Failure => .error ErrorCode.AbortedComputation

/-- `update_health_factor_callback` (`programs/sentinel-mpc/src/lib.rs:116`). -/
def update_health_factor_callback
    (output : ComputationOutputs UpdateHealthFactorOutput) (now : Int) :
    CallbackResult :=
  match output with
  | .Success _ => .ok [SentinelEvent.HealthFactorUpdated now]
  | .Failure => .error ErrorCode.AbortedComputation

/-- `prove_health_threshold_callback` (`programs/sentinel-mpc/src/lib.rs:153`). -/
def prove_health_threshold_callback
    (output : ComputationOutputs ProveHealthThresholdOutput) (now : Int) :
    CallbackResult :=
  match output with
  | .Success v => .ok [SentinelEvent.HealthThresholdProved v.field_0 now]
  | .Failure => .error ErrorCode.AbortedComputation

/-- `init_dark_pool_order_callback` (`programs/sentinel-mpc/src/lib.rs:195`). -/
def init_dark_pool_order_callback
    (output : ComputationOutputs InitDarkPoolOrderOutput) (now : Int) :
    CallbackResult :=
  match output with
  | .Success _ => .ok [SentinelEvent.DarkPoolOrderCreated now]
  | .Failure => .error ErrorCode.AbortedComputation

/-- `match_dark_pool_orders_callback` (`programs/sentinel-mpc/src/lib.rs:234`). -/
def match_dark_pool_orders_callback
    (output : ComputationOutputs MatchDarkPoolOrdersOutput) (now : Int) :
    CallbackResult :=
  match output with
  | .Success v => .ok [SentinelEvent.DarkPoolOrdersMatched v.field_0 now]
  | .Failure => .error ErrorCode.AbortedComputation

/-- `execute_private_swap_callback` (`programs/sentinel-mpc/src/lib.rs:274`). -/
def execute_private_swap_callback
    (output : ComputationOutputs ExecutePrivateSwapOutput) (now : Int) :
    CallbackResult :=
  match output with
  | .Success v => .ok [SentinelEvent.PrivateSwapExecuted v.field_0 now]
  | .Failure => .error ErrorCode.AbortedComputation

/-- `batch_health_check_callback` (`programs/sentinel-mpc/src/lib.rs:312`). -/
def batch_health_check_callback
    (output : ComputationOutputs BatchHealthCheckOutput) (now : Int) :
    CallbackResult :=
  match output with
  | .Success v => .ok [SentinelEvent.BatchHealthChecked v.field_0 now]
  | .Failure => .error ErrorCode.AbortedComputation

/-- `calculate_liquidation_risk_callback` (`programs/sentinel-mpc/src/lib.rs:352`). -/
def calculate_liquidation_risk_callback
    (output : ComputationOutputs CalculateLiquidationRiskOutput) (now : Int) :
    CallbackResult :=
  match output with
  | .Success v => .ok [SentinelEvent.LiquidationRiskCalculated v.field_0 now]
  | .Failure => .error ErrorCode.AbortedComputation

/-- Collateral summed over the active positions (those with
`debt_usd > 0`), with exact (non-wrapping) arithmetic; the reference
value the aggregation claims compare against. -/
def sumActiveCollateral : List EncryptedPosition → Nat
  | [] => 0
  | p :: ps =>
    (if p.debt_usd > 0 then p.collateral_usd else 0) + sumActiveCollateral ps

/-- Debt summed over the active positions, with exact arithmetic. -/
def sumActiveDebt : List EncryptedPosition → Nat
  | [] => 0
  | p :: ps =>
    (if p.debt_usd > 0 then p.debt_usd else 0) + sumActiveDebt ps

/-- Number of active positions whose health factor is below the
threshold. -/
def countAtRisk (risk_threshold_bps : Nat) : List EncryptedPosition → Nat
  | [] => 0
  | p :: ps =>
    (if p.debt_usd > 0 ∧ p.health_factor_bps < risk_threshold_bps then 1 else 0)
      + countAtRisk risk_threshold_bps ps

/-- A position with the given collateral, debt and health factor; the
remaining fields are zeroed. -/
def mkPosition (collateral debt health : Nat) : EncryptedPosition :=
  { collateral_usd := collateral, debt_usd := debt,
    health_factor_bps := health, leverage_bps := 0,
    liquidation_price := 0, protocol_id := 0, last_updated := 0 }

/-- The all-zero-fields position used as concrete stored state. -/
def samplePosition : EncryptedPosition := mkPosition 0 0 10000

/-- A concrete encrypted stored position. -/
def samplePositionEnc : Enc EncryptedPosition := from_arcis 0 samplePosition

/-- A second concrete encrypted stored position (distinct instantiation
input for a second claim). -/
def samplePositionEnc2 : Enc EncryptedPosition := from_arcis 1 samplePosition

/-- A concrete encrypted position whose health factor is 15000. -/
def healthyPositionEnc : Enc EncryptedPosition :=
  from_arcis 0 (mkPosition 15000 10000 15000)

/-- The constant-zero byte identifier. -/
def mintA : Bytes32 := fun _ => 0

/-- The constant-one byte identifier, distinct from `mintA`. -/
def mintB : Bytes32 := fun _ => 1

/-- A dark-pool order with the given fields and `expires_at = 0`. -/
def mkOrder (side : Nat) (mint : Bytes32) (amount limit minFill : Nat) :
    DarkPoolOrder :=
  { side := side, token_mint := mint, amount := amount,
    limit_price := limit, min_fill_amount := minFill, expires_at := 0 }

/-- The spec scenario's buy order:
`buy{limit_price=100, min_fill=10, amount=50, side=0}`. -/
def scenarioBuyEnc : Enc DarkPoolOrder := from_arcis 0 (mkOrder 0 mintA 50 100 10)

/-- The spec scenario's sell order:
`sell{limit_price=90, min_fill=20, amount=60, side=1}`. -/
def scenarioSellEnc : Enc DarkPoolOrder := from_arcis 1 (mkOrder 1 mintA 60 90 20)

/-- A buy order whose token mint differs from `scenarioSellEnc`'s. -/
def otherMintBuyEnc : Enc DarkPoolOrder := from_arcis 0 (mkOrder 0 mintB 50 100 10)

/-- A pair of orders whose limit prices sum to `2^64`, so that the u64
addition inside `calculate_execution_price` wraps to zero. -/
def hugeBuyEnc : Enc DarkPoolOrder := from_arcis 0 (mkOrder 0 mintA 50 (2 ^ 63) 10)

/-- The matching huge sell order. -/
def hugeSellEnc : Enc DarkPoolOrder := from_arcis 1 (mkOrder 1 mintA 60 (2 ^ 63) 20)

/-- A concrete encrypted swap intent with zeroed fields. -/
def sampleIntentEnc : Enc SwapIntent :=
  from_arcis 0 { from_token := mintA, to_token := mintA, amount_in := 0,
                 min_amount_out := 0, max_slippage_bps := 50, deadline := 0 }

/-- The spec scenario portfolio: 3 positions with `debt_usd = 0`
(skipped) and 7 active positions with total collateral 70000 and total
debt 50000. -/
def scenarioPortfolio : List EncryptedPosition :=
  [mkPosition 10000 10000 14000, mkPosition 10000 10000 14000,
   mkPosition 10000 10000 14000, mkPosition 10000 5000 14000,
   mkPosition 10000 5000 14000, mkPosition 10000 5000 14000,
   mkPosition 10000 5000 14000, mkPosition 99999 0 14000,
   mkPosition 99999 0 14000, mkPosition 99999 0 14000]

/-- The scenario portfolio, encrypted to owner 7. -/
def scenarioPortfolioEnc : Enc (List EncryptedPosition) :=
  from_arcis 7 scenarioPortfolio

/-- A 10-position portfolio with a single active position whose
collateral is large enough that `collateral * 10000` wraps modulo
`2^64` (indeed `2^60 * 10000 = 625 * 2^64 ≡ 0`). -/
def overflowPortfolio : List EncryptedPosition :=
  [mkPosition (2 ^ 60) 1 14000, mkPosition 0 0 14000, mkPosition 0 0 14000,
   mkPosition 0 0 14000, mkPosition 0 0 14000, mkPosition 0 0 14000,
   mkPosition 0 0 14000, mkPosition 0 0 14000, mkPosition 0 0 14000,
   mkPosition 0 0 14000]

/-- The overflow portfolio, encrypted to owner 3. -/
def overflowPortfolioEnc : Enc (List EncryptedPosition) :=
  from_arcis 3 overflowPortfolio

theorem mul64_eq_of_lt {a b : Nat} (h : a * b < U64) : mul64 a b = a * b :=
  Nat.mod_eq_of_lt h

theorem add64_eq_of_lt {a b : Nat} (h : a + b < U64) : add64 a b = a + b :=
  Nat.mod_eq_of_lt h

/-- Evaluation of `update_health_factor` when both divisors are
positive: the call succeeds and stores the two wrapped ratios. -/
theorem update_health_factor_pos_eval (st : Enc EncryptedPosition)
    (c d : Nat) (hd : 0 < d) (hc : 0 < c) :
    update_health_factor st c d = some (from_arcis st.owner
      { st.value with
        collateral_usd := c
        debt_usd := d
        health_factor_bps := mul64 c 10000 / d
        leverage_bps := mul64 d 10000 / c }) := by
  have hd0 : d ≠ 0 := by omega
  have hc0 : c ≠ 0 := by omega
  simp [update_health_factor, div64, hd, hd0, hc0, Enc.to_arcis]

/-- Evaluation of `update_health_factor` at zero collateral and positive
debt: the unguarded leverage division by zero aborts the call. -/
theorem update_health_factor_zero_collateral (st : Enc EncryptedPosition)
    (d : Nat) (hd : 0 < d) : update_health_factor st 0 d = none := by
  have hd0 : d ≠ 0 := by omega
  simp [update_health_factor, div64, hd, hd0, mul64]

/-- C1 (amended): for every call to `update_health_factor` with
`new_debt > 0`, `new_collateral > 0` and `new_collateral * 10000 < 2^64`,
the stored position's `health_factor_bps` is `10000 * new_collateral /
new_debt` with truncating integer division, and for every call with
`new_debt = 0` both `health_factor_bps` and `leverage_bps` are set to the
sentinel 10000.  (The original full domain `collateral ≥ 0` fails: at
`new_collateral = 0` the unguarded leverage division by zero aborts the
call, and past `2^64 / 10000` the u64 product wraps.) -/
theorem update_health_factor_formula :
    (∀ (st : Enc EncryptedPosition) (c d : Nat), 0 < d → 0 < c →
        c * 10000 < U64 →
        ∃ q, update_health_factor st c d = some q ∧
          q.value.health_factor_bps = 10000 * c / d) ∧
    (∀ (st : Enc EncryptedPosition) (c : Nat),
        ∃ q, update_health_factor st c 0 = some q ∧
          q.value.health_factor_bps = 10000 ∧ q.value.leverage_bps = 10000) := by
  constructor
  · intro st c d hd hc hov
    refine ⟨_, update_health_factor_pos_eval st c d hd hc, ?_⟩
    show mul64 c 10000 / d = 10000 * c / d
    rw [mul64_eq_of_lt hov, Nat.mul_comm]
  · intro st c
    exact ⟨_, rfl, rfl, rfl⟩

/-- Witness for C1 at collateral 30000, debt 20000 (health 15000) and at
debt 0. -/
theorem update_health_factor_formula_witness :
    ((0:Nat) < 20000 ∧ (0:Nat) < 30000 ∧ 30000 * 10000 < U64 ∧
      ∃ q, update_health_factor samplePositionEnc 30000 20000 = some q ∧
        q.value.health_factor_bps = 10000 * 30000 / 20000) ∧
    (∃ q, update_health_factor samplePositionEnc 42 0 = some q ∧
      q.value.health_factor_bps = 10000 ∧ q.value.leverage_bps = 10000) := by
  refine ⟨⟨by norm_num, by norm_num, by norm_num [U64], ?_⟩, ?_⟩
  · exact update_health_factor_formula.1 samplePositionEnc 30000 20000
      (by norm_num) (by norm_num) (by norm_num [U64])
  · exact update_health_factor_formula.2 samplePositionEnc 42

/-- Counterexample to C1 as stated over the full domain `debt > 0`,
`collateral ≥ 0`: at collateral 0 and debt 5 the call fails on the
unguarded leverage division by zero (nothing is stored), and at
collateral `2^60` and debt 1 the u64 product `2^60 * 10000` wraps to 0,
so the stored health factor is 0 instead of `10000 * 2^60 / 1 > 0`. -/
theorem update_health_factor_full_domain_cex :
    update_health_factor samplePositionEnc 0 5 = none ∧
    (∃ q, update_health_factor samplePositionEnc (2 ^ 60) 1 = some q ∧
      q.value.health_factor_bps = 0) ∧ 0 < 10000 * 2 ^ 60 / 1 := by
  refine ⟨rfl, ⟨_, rfl, rfl⟩, by norm_num⟩

/-- C4 (amended): for every input with `new_debt > 0` and
`new_collateral > 0`, `update_health_factor` evaluates without division
by zero; but for `new_collateral = 0` (which the original claim included)
the computation `10000 * new_debt / new_collateral` divides by zero and
the evaluation fails. -/
theorem update_health_factor_division_guard :
    (∀ (st : Enc EncryptedPosition) (c d : Nat), 0 < d → 0 < c →
        ∃ q, update_health_factor st c d = some q) ∧
    (∀ (st : Enc EncryptedPosition) (d : Nat), 0 < d →
        update_health_factor st 0 d = none) := by
  constructor
  · intro st c d hd hc
    exact ⟨_, update_health_factor_pos_eval st c d hd hc⟩
  · intro st d hd
    exact update_health_factor_zero_collateral st d hd

/-- Witness for C4 at collateral 5, debt 3 and at collateral 0, debt 9. -/
theorem update_health_factor_division_guard_witness :
    ((0:Nat) < 3 ∧ (0:Nat) < 5 ∧
      ∃ q, update_health_factor samplePositionEnc2 5 3 = some q) ∧
    ((0:Nat) < 9 ∧ update_health_factor samplePositionEnc2 0 9 = none) := by
  refine ⟨⟨by norm_num, by norm_num, ?_⟩, ⟨by norm_num, ?_⟩⟩
  · exact update_health_factor_division_guard.1 samplePositionEnc2 5 3
      (by norm_num) (by norm_num)
  · exact update_health_factor_division_guard.2 samplePositionEnc2 9 (by norm_num)

/-- Counterexample to C4 as stated: at `new_collateral = 0`,
`new_debt = 7` — inside the domain the claim declares safe — the
unguarded division `10000 * new_debt / new_collateral` is a division by
zero and the evaluation of `update_health_factor` fails. -/
theorem update_health_factor_div_by_zero_cex :
    update_health_factor samplePositionEnc2 0 7 = none := rfl

/-- Evaluation of `verify_swap_fairness` at a positive oracle price. -/
theorem verify_swap_fairness_pos_eval (intent : Enc SwapIntent)
    (o e m : Nat) (ho : 0 < o) :
    verify_swap_fairness intent o e m =
      some (decide (mul64 (if e > o then e - o else o - e) 10000 / o ≤ m)) := by
  have ho0 : o ≠ 0 := by omega
  simp [verify_swap_fairness, div64, ho0, Enc.to_arcis]

/-- C5 (amended): under the precondition `oracle_price > 0` and provided
the u64 product `|execution_price − oracle_price| * 10000` does not wrap
(below `2^64`), `verify_swap_fairness` returns true iff
`10000 * |execution_price − oracle_price| / oracle_price ≤
max_deviation_bps` with truncating division; and the division by
`oracle_price` is reached on every evaluation: at `oracle_price = 0` the
call always fails. -/
theorem verify_swap_fairness_deviation :
    (∀ (intent : Enc SwapIntent) (o e m : Nat), 0 < o →
        (max e o - min e o) * 10000 < U64 →
        (verify_swap_fairness intent o e m = some true ↔
          10000 * (max e o - min e o) / o ≤ m)) ∧
    (∀ (intent : Enc SwapIntent) (e m : Nat),
        verify_swap_fairness intent 0 e m = none) := by
  constructor
  · intro intent o e m ho hov
    have habs : (if e > o then e - o else o - e) = max e o - min e o := by
      split <;> omega
    rw [verify_swap_fairness_pos_eval intent o e m ho, habs,
      mul64_eq_of_lt hov, Nat.mul_comm (max e o - min e o) 10000]
    simp
  · intro intent e m
    simp [verify_swap_fairness, div64]

/-- Witness for C5 at oracle 100, execution 103, cap 300, and the
failure at oracle 0. -/
theorem verify_swap_fairness_deviation_witness :
    ((0:Nat) < 100 ∧ (max 103 100 - min 103 100) * 10000 < U64 ∧
      (verify_swap_fairness sampleIntentEnc 100 103 300 = some true ↔
        10000 * (max 103 100 - min 103 100) / 100 ≤ 300)) ∧
    verify_swap_fairness sampleIntentEnc 0 103 300 = none := by
  refine ⟨⟨by norm_num, by norm_num [U64], ?_⟩, ?_⟩
  · exact verify_swap_fairness_deviation.1 sampleIntentEnc 100 103 300
      (by norm_num) (by norm_num [U64])
  · exact verify_swap_fairness_deviation.2 sampleIntentEnc 103 300

/-- Counterexample to C5 as stated over the whole `oracle_price > 0`
domain: at `oracle_price = 1`, `execution_price = 2^60 + 1`,
`max_deviation_bps = 0` the u64 product `2^60 * 10000` wraps to 0, so
the code reveals true although the claimed deviation
`10000 * |2^60 + 1 − 1| / 1` is positive and exceeds the cap. -/
theorem verify_swap_fairness_overflow_cex :
    verify_swap_fairness sampleIntentEnc 1 (2 ^ 60 + 1) 0 = some true ∧
    0 < 10000 * (max (2 ^ 60 + 1) 1 - min (2 ^ 60 + 1) 1) / 1 := by
  refine ⟨rfl, by norm_num⟩

/-- C6: `match_dark_pool_orders` reveals true iff the token mints are
equal, the buy limit price covers the sell limit price, each side's
amount covers the other's minimum fill, and the sides are buy = 0,
sell = 1; in particular a mismatched token mint always yields false. -/
theorem match_dark_pool_orders_iff :
    (∀ buy_order sell_order : Enc DarkPoolOrder,
        match_dark_pool_orders buy_order sell_order = true ↔
          (buy_order.to_arcis.token_mint = sell_order.to_arcis.token_mint ∧
           buy_order.to_arcis.limit_price ≥ sell_order.to_arcis.limit_price ∧
           buy_order.to_arcis.amount ≥ sell_order.to_arcis.min_fill_amount ∧
           sell_order.to_arcis.amount ≥ buy_order.to_arcis.min_fill_amount ∧
           buy_order.to_arcis.side = 0 ∧ sell_order.to_arcis.side = 1)) ∧
    (∀ buy_order sell_order : Enc DarkPoolOrder,
        buy_order.to_arcis.token_mint ≠ sell_order.to_arcis.token_mint →
        match_dark_pool_orders buy_order sell_order = false) := by
  constructor
  · intro b s
    simp [match_dark_pool_orders, and_assoc]
  · intro b s hne
    simp [match_dark_pool_orders, hne]

/-- Witness for C6: a buy order with a different token mint never
matches the scenario sell order. -/
theorem match_dark_pool_orders_iff_witness :
    otherMintBuyEnc.to_arcis.token_mint ≠ scenarioSellEnc.to_arcis.token_mint ∧
    match_dark_pool_orders otherMintBuyEnc scenarioSellEnc = false := by
  refine ⟨by decide, ?_⟩
  exact match_dark_pool_orders_iff.2 otherMintBuyEnc scenarioSellEnc (by decide)

/-- C7: `calculate_liquidation_risk` reveals the tier of
`adjusted = health_factor_bps − price_impact_bps` floored at 0 (which is
exactly truncated natural subtraction), with tiers `≥15000 → 0`,
`≥12500 → 1`, `≥11000 → 2`, `≥10500 → 3`, else 4; in particular a
position with health factor 15000 under price impact 1000 lands in
tier 1. -/
theorem calculate_liquidation_risk_tiers :
    (∀ (position_ctxt : Enc EncryptedPosition) (price_impact_bps : Nat),
        calculate_liquidation_risk position_ctxt price_impact_bps =
          (if position_ctxt.to_arcis.health_factor_bps - price_impact_bps ≥ 15000 then 0
           else if position_ctxt.to_arcis.health_factor_bps - price_impact_bps ≥ 12500 then 1
           else if position_ctxt.to_arcis.health_factor_bps - price_impact_bps ≥ 11000 then 2
           else if position_ctxt.to_arcis.health_factor_bps - price_impact_bps ≥ 10500 then 3
           else 4)) ∧
    (∀ position_ctxt : Enc EncryptedPosition,
        position_ctxt.to_arcis.health_factor_bps = 15000 →
        calculate_liquidation_risk position_ctxt 1000 = 1) := by
  constructor
  · intro p i
    simp only [calculate_liquidation_risk]
    have hadj : (if p.to_arcis.health_factor_bps > i then
        p.to_arcis.health_factor_bps - i else 0) =
        p.to_arcis.health_factor_bps - i := by
      split <;> omega
    rw [hadj]
  · intro p h15
    simp only [calculate_liquidation_risk, h15]
    norm_num

/-- Witness for C7: the concrete position with health factor 15000 under
price impact 1000 is in tier 1. -/
theorem calculate_liquidation_risk_tiers_witness :
    healthyPositionEnc.to_arcis.health_factor_bps = 15000 ∧
    calculate_liquidation_risk healthyPositionEnc 1000 = 1 := by
  refine ⟨rfl, ?_⟩
  exact calculate_liquidation_risk_tiers.2 healthyPositionEnc rfl

theorem U64_eq : U64 = 18446744073709551616 := by norm_num [U64]

/-- The aggregation loop computes the exact active sums and the at-risk
count as long as neither running total wraps modulo `2^64`. -/
theorem agg_scan_exact (threshold : Nat) (ps : List EncryptedPosition) :
    ∀ tc td n : Nat, tc + sumActiveCollateral ps < U64 →
      td + sumActiveDebt ps < U64 →
      agg_scan threshold ps (tc, td, n) =
        (tc + sumActiveCollateral ps, td + sumActiveDebt ps,
         n + countAtRisk threshold ps) := by
  induction ps with
  | nil =>
    intro tc td n _ _
    simp [agg_scan, sumActiveCollateral, sumActiveDebt, countAtRisk]
  | cons p t ih =>
    intro tc td n hc hd
    simp only [sumActiveCollateral, sumActiveDebt, countAtRisk] at hc hd ⊢
    by_cases hp : p.debt_usd > 0
    · simp only [agg_scan, if_pos hp]
      simp only [if_pos hp] at hc hd
      rw [add64_eq_of_lt (by omega), add64_eq_of_lt (by omega)]
      rw [ih (tc + p.collateral_usd) (td + p.debt_usd) _ (by omega) (by omega)]
      by_cases hh : p.health_factor_bps < threshold
      · simp only [if_pos hh,
          if_pos (show p.debt_usd > 0 ∧ p.health_factor_bps < threshold from ⟨hp, hh⟩),
          Prod.mk.injEq]
        omega
      · have hno : ¬(p.debt_usd > 0 ∧ p.health_factor_bps < threshold) :=
          fun h => hh h.2
        simp only [if_neg hh, if_neg hno, Prod.mk.injEq]
        omega
    · have hno : ¬(p.debt_usd > 0 ∧ p.health_factor_bps < threshold) :=
        fun h => hp h.1
      simp only [agg_scan, if_neg hp]
      simp only [if_neg hp] at hc hd
      rw [ih tc td n (by omega) (by omega)]
      simp only [if_neg hno, Prod.mk.injEq]
      omega

/-- C8 (amended): for every 10-element position array whose exact active
collateral total satisfies `Σcollateral * 10000 < 2^64` and whose active
debt total is below `2^64`, `aggregate_portfolio_risk` sums collateral
and debt only over positions with `debt_usd > 0`, counts at-risk
positions only among those, and sets `weighted_health =
10000 * Σcollateral / Σdebt`, or 10000 when `Σdebt = 0`.  (Without the
wrap bounds the u64 sums and the product can wrap, breaking the stated
equalities.) -/
theorem aggregate_portfolio_risk_totals :
    ∀ (positions : Enc (List EncryptedPosition)) (risk_threshold_bps : Nat),
      positions.to_arcis.length = 10 →
      sumActiveCollateral positions.to_arcis * 10000 < U64 →
      sumActiveDebt positions.to_arcis < U64 →
      (aggregate_portfolio_risk positions risk_threshold_bps).to_arcis.total_collateral
          = sumActiveCollateral positions.to_arcis ∧
      (aggregate_portfolio_risk positions risk_threshold_bps).to_arcis.total_debt
          = sumActiveDebt positions.to_arcis ∧
      (aggregate_portfolio_risk positions risk_threshold_bps).to_arcis.positions_at_risk
          = countAtRisk risk_threshold_bps positions.to_arcis ∧
      (0 < sumActiveDebt positions.to_arcis →
        (aggregate_portfolio_risk positions risk_threshold_bps).to_arcis.weighted_health
          = 10000 * sumActiveCollateral positions.to_arcis
              / sumActiveDebt positions.to_arcis) ∧
      (sumActiveDebt positions.to_arcis = 0 →
        (aggregate_portfolio_risk positions risk_threshold_bps).to_arcis.weighted_health
          = 10000) := by
  intro pos th hlen hovc hovd
  have hU := U64_eq
  simp only [Enc.to_arcis] at hovc hovd ⊢
  have hsum : agg_scan th pos.value (0, 0, 0) =
      (0 + sumActiveCollateral pos.value, 0 + sumActiveDebt pos.value,
       0 + countAtRisk th pos.value) :=
    agg_scan_exact th pos.value 0 0 0 (by omega) (by omega)
  simp only [Nat.zero_add] at hsum
  simp only [aggregate_portfolio_risk, Enc.to_arcis, from_arcis, hsum]
  refine ⟨trivial, trivial, trivial, ?_, ?_⟩
  · intro hpos
    rw [if_pos hpos, mul64_eq_of_lt hovc, Nat.mul_comm]
  · intro hzero
    rw [if_neg (by omega)]

/-- Witness for C8: the spec scenario portfolio (3 zero-debt positions
skipped, 7 active ones totalling collateral 70000 and debt 50000) gets
`weighted_health = 14000`. -/
theorem aggregate_portfolio_risk_totals_witness :
    (scenarioPortfolioEnc.to_arcis.length = 10 ∧
     sumActiveCollateral scenarioPortfolioEnc.to_arcis * 10000 < U64 ∧
     sumActiveDebt scenarioPortfolioEnc.to_arcis < U64 ∧
     0 < sumActiveDebt scenarioPortfolioEnc.to_arcis) ∧
    (aggregate_portfolio_risk scenarioPortfolioEnc 11000).to_arcis.weighted_health
      = 14000 := by
  refine ⟨⟨by decide, by decide, by decide, by decide⟩, ?_⟩
  have h := (aggregate_portfolio_risk_totals scenarioPortfolioEnc 11000
    (by decide) (by decide) (by decide)).2.2.2.1 (by decide)
  rw [h]
  decide

/-- Counterexample to C8 as stated over all 10-element arrays: a single
active position with collateral `2^60` and debt 1 makes the u64 product
`Σcollateral * 10000` wrap to 0, so the code stores `weighted_health = 0`
while the claimed value `10000 * Σcollateral / Σdebt` is positive. -/
theorem aggregate_portfolio_risk_overflow_cex :
    (aggregate_portfolio_risk overflowPortfolioEnc 11000).to_arcis.weighted_health
        = 0 ∧
    0 < 10000 * sumActiveCollateral overflowPortfolioEnc.to_arcis
        / sumActiveDebt overflowPortfolioEnc.to_arcis := by
  exact ⟨rfl, by decide⟩

/-- Fill amount of `calculate_execution_price` as the claimed minimum. -/
theorem fill_amount_min (a b : Nat) :
    (if a < b then a else b) = min a b := by
  split <;> omega

/-- C9 (amended): for every pair of orders whose limit prices sum below
`2^64`, `calculate_execution_price` produces the truncating integer
average `(buy.limit_price + sell.limit_price) / 2` as execution price and
`min(buy.amount, sell.amount)` as fill amount, re-encrypted to the buy
order's owner rather than revealed.  (Without the bound the u64 sum of
the limit prices wraps.) -/
theorem calculate_execution_price_formula :
    ∀ buy_order sell_order : Enc DarkPoolOrder,
      buy_order.to_arcis.limit_price + sell_order.to_arcis.limit_price < U64 →
      calculate_execution_price buy_order sell_order =
        from_arcis buy_order.owner
          { is_matched := decide
              (buy_order.to_arcis.limit_price ≥ sell_order.to_arcis.limit_price)
            execution_price :=
              (buy_order.to_arcis.limit_price + sell_order.to_arcis.limit_price) / 2
            fill_amount :=
              min buy_order.to_arcis.amount sell_order.to_arcis.amount } := by
  intro b s hov
  simp only [calculate_execution_price]
  rw [add64_eq_of_lt hov, fill_amount_min]

/-- Witness for C9: the spec scenario orders (limits 100/90, amounts
50/60) yield execution price 95 and fill 50, re-encrypted to the buy
order's owner. -/
theorem calculate_execution_price_formula_witness :
    (scenarioBuyEnc.to_arcis.limit_price + scenarioSellEnc.to_arcis.limit_price
        < U64) ∧
    (calculate_execution_price scenarioBuyEnc scenarioSellEnc).to_arcis.execution_price
        = 95 ∧
    (calculate_execution_price scenarioBuyEnc scenarioSellEnc).to_arcis.fill_amount
        = 50 ∧
    (calculate_execution_price scenarioBuyEnc scenarioSellEnc).owner
        = scenarioBuyEnc.owner := by
  refine ⟨by decide, ?_⟩
  have h := calculate_execution_price_formula scenarioBuyEnc scenarioSellEnc
    (by decide)
  rw [h]
  exact ⟨by decide, by decide, by decide⟩

/-- Counterexample to C9 as stated for every pair: two orders with limit
prices `2^63` each make the u64 sum wrap to 0, so the code computes
execution price 0 while the claimed integer average is `2^63 > 0`. -/
theorem calculate_execution_price_overflow_cex :
    (calculate_execution_price hugeBuyEnc hugeSellEnc).to_arcis.execution_price
        = 0 ∧
    (hugeBuyEnc.to_arcis.limit_price + hugeSellEnc.to_arcis.limit_price) / 2
        = 2 ^ 63 ∧ (0:Nat) < 2 ^ 63 := by
  exact ⟨rfl, by decide, by decide⟩

/-- C10: the `is_matched` flag produced by `calculate_execution_price`
is exactly the price relation `buy.limit_price ≥ sell.limit_price`: it
checks neither token mints nor sides nor minimum fills, so there are
order pairs that `match_dark_pool_orders` rejects while
`calculate_execution_price` reports them matched. -/
theorem execution_price_match_flag_divergence :
    (∀ buy_order sell_order : Enc DarkPoolOrder,
        (calculate_execution_price buy_order sell_order).to_arcis.is_matched =
          decide (buy_order.to_arcis.limit_price ≥
            sell_order.to_arcis.limit_price)) ∧
    (∃ buy_order sell_order : Enc DarkPoolOrder,
        match_dark_pool_orders buy_order sell_order = false ∧
        (calculate_execution_price buy_order sell_order).to_arcis.is_matched
          = true) := by
  constructor
  · intro b s
    rfl
  · exact ⟨from_arcis 0 (mkOrder 0 mintA 50 100 10),
      from_arcis 1 (mkOrder 0 mintA 60 90 20), by decide, by decide⟩

/-- C2 (amended): the program's error taxonomy consists of exactly
AbortedComputation, ClusterNotSet, InvalidPositionState, OrderExpired,
InsufficientLiquidity and SlippageExceeded; it contains neither a
DuplicateCallback nor a DuplicateComputation kind — rejection of a
duplicated callback or a duplicated correlation id is enforced by the
external Arcium framework, not surfaced as an error kind of this
program. -/
theorem error_taxonomy_no_duplicate_kinds :
    (∀ e : ErrorCode, e ∈ allErrorCodes) ∧
    errorCodeNames.contains "DuplicateCallback" = false ∧
    errorCodeNames.contains "DuplicateComputation" = false ∧
    errorCodeNames.contains "AbortedComputation" = true ∧
    errorCodeNames.length = 6 := by
  refine ⟨?_, by decide, by decide, by decide, by decide⟩
  intro e
  cases e <;> simp [allErrorCodes]

/-- Counterexample to C2 as stated: neither of the two claimed error
kinds occurs among the variant names of the program's `ErrorCode` enum. -/
theorem error_taxonomy_duplicate_cex :
    errorCodeNames.contains "DuplicateCallback" = false ∧
    errorCodeNames.contains "DuplicateComputation" = false := by
  exact ⟨by decide, by decide⟩

/-- C3: every callback handler of the program sends a `Success` output
to `Ok` while emitting exactly one typed domain event carrying the
timestamp, and sends every non-`Success` output to the
`AbortedComputation` error with no event emitted; no handler mutates any
stored record (the returned event list is a handler's entire effect). -/
theorem callback_success_and_abort_behaviour :
    (∀ (v : InitEncryptedPositionOutput) (now : Int),
        init_encrypted_position_callback (.Success v) now =
          .ok [SentinelEvent.PositionInitialized now]) ∧
    (∀ now : Int, init_encrypted_position_callback .Failure now =
        .error ErrorCode.AbortedComputation) ∧
    (∀ (v : UpdateHealthFactorOutput) (now : Int),
        update_health_factor_callback (.Success v) now =
          .ok [SentinelEvent.HealthFactorUpdated now]) ∧
    (∀ now : Int, update_health_factor_callback .Failure now =
        .error ErrorCode.AbortedComputation) ∧
    (∀ (v : ProveHealthThresholdOutput) (now : Int),
        prove_health_threshold_callback (.Success v) now =
          .ok [SentinelEvent.HealthThresholdProved v.field_0 now]) ∧
    (∀ now : Int, prove_health_threshold_callback .Failure now =
        .error ErrorCode.AbortedComputation) ∧
    (∀ (v : InitDarkPoolOrderOutput) (now : Int),
        init_dark_pool_order_callback (.Success v) now =
          .ok [SentinelEvent.DarkPoolOrderCreated now]) ∧
    (∀ now : Int, init_dark_pool_order_callback .Failure now =
        .error ErrorCode.AbortedComputation) ∧
    (∀ (v : MatchDarkPoolOrdersOutput) (now : Int),
        match_dark_pool_orders_callback (.Success v) now =
          .ok [SentinelEvent.DarkPoolOrdersMatched v.field_0 now]) ∧
    (∀ now : Int, match_dark_pool_orders_callback .Failure now =
        .error ErrorCode.AbortedComputation) ∧
    (∀ (v : ExecutePrivateSwapOutput) (now : Int),
        execute_private_swap_callback (.Success v) now =
          .ok [SentinelEvent.PrivateSwapExecuted v.field_0 now]) ∧
    (∀ now : Int, execute_private_swap_callback .Failure now =
        .error ErrorCode.AbortedComputation) ∧
    (∀ (v : BatchHealthCheckOutput) (now : Int),
        batch_health_check_callback (.Success v) now =
          .ok [SentinelEvent.BatchHealthChecked v.field_0 now]) ∧
    (∀ now : Int, batch_health_check_callback .Failure now =
        .error ErrorCode.AbortedComputation) ∧
    (∀ (v : CalculateLiquidationRiskOutput) (now : Int),
        calculate_liquidation_risk_callback (.Success v) now =
          .ok [SentinelEvent.LiquidationRiskCalculated v.field_0 now]) ∧
    (∀ now : Int, calculate_liquidation_risk_callback .Failure now =
        .error ErrorCode.AbortedComputation) :=
  ⟨fun _ _ => rfl, fun _ => rfl, fun _ _ => rfl, fun _ => rfl,
   fun _ _ => rfl, fun _ => rfl, fun _ _ => rfl, fun _ => rfl,
   fun _ _ => rfl, fun _ => rfl, fun _ _ => rfl, fun _ => rfl,
   fun _ _ => rfl, fun _ => rfl, fun _ _ => rfl, fun _ => rfl⟩
